import Mathlib

/-!
Verification development for the file-acquisition dispatch engine in
`filehandles/filehandles.py` (package `filehandles`, version 0.3.1.post1).
The definitions below are a shallow embedding of that module: generators
are modelled by the finite trace of values they yield followed by their
terminal outcome, and the ambient I/O facts each opener consults (is the
path a directory, does the archive open, does the one-byte probe succeed)
are abstracted into explicit source records.
-/

/-- Abstract syntax of the regular expressions passed as `pattern`.  The
Python code stores patterns as strings and interprets them with the `re`
module; we work with the abstract syntax tree directly.  `dot` is the `.`
metacharacter, which in Python's default mode matches any character
except a newline. -/
inductive Regex where
  | emp : Regex
  | eps : Regex
  | chr : Char → Regex
  | dot : Regex
  | alt : Regex → Regex → Regex
  | cat : Regex → Regex → Regex
  | star : Regex → Regex
deriving DecidableEq

/-- Nullability: whether the regex accepts the empty string. -/
def nullable : Regex → Bool
  | .emp => false
  | .eps => true
  | .chr _ => false
  | .dot => false
  | .alt r s => nullable r || nullable s
  | .cat r s => nullable r && nullable s
  | .star _ => true

/-- Brzozowski derivative of a regex with respect to one character
(named `rderiv` to stay clear of Mathlib's calculus `deriv`). -/
def rderiv : Regex → Char → Regex
  | .emp, _ => .emp
  | .eps, _ => .emp
  | .chr c, a => if a = c then .eps else .emp
  | .dot, a => if a = '\n' then .emp else .eps
  | .alt r s, a => .alt (rderiv r a) (rderiv s a)
  | .cat r s, a =>
      if nullable r then .alt (.cat (rderiv r a) s) (rderiv s a)
      else .cat (rderiv r a) s
  | .star r, a => .cat (rderiv r a) (.star r)

/-- Whole-string matching: `rmatch r s` holds iff `r` accepts exactly
`s`.  This is the semantics of Python's `re.fullmatch`, the "wholly
matching" reading used by the specification text. -/
def rmatch : Regex → List Char → Bool
  | r, [] => nullable r
  | r, c :: cs => rmatch (rderiv r c) cs

/-- Python's `re.match(pattern, name)` is truthy iff the regex matches at
the beginning of `name`, i.e. iff it accepts some (possibly empty,
possibly proper) leading segment of `name`.  Every pattern test in
`filehandles.py` goes through `re.match`. -/
def reMatch (r : Regex) (s : List Char) : Bool :=
  (List.range (s.length + 1)).any (fun n => rmatch r (s.take n))

/-- The guard `if pattern and not re.match(pattern, name)` that opens
every opener's skip branch.  `none` models the default empty-string
pattern, which is falsy in Python, so the guard lets every name
through. -/
def patternPasses (pattern : Option Regex) (name : String) : Bool :=
  match pattern with
  | none => true
  | some r => reMatch r name.toList

/-- Python's `str.startswith`, computed on the character lists (the
built-in `String.startsWith` does not reduce inside the kernel). -/
def pyStartsWith (s pre : String) : Bool :=
  List.isPrefixOf pre.toList s.toList

/-- Python's `str.endswith`, computed on the character lists. -/
def pyEndsWith (s suf : String) : Bool :=
  List.isSuffixOf suf.toList s.toList

/-- The exception kinds relevant to the dispatcher.  The first six are
the exception classes listed in the `except` tuple of `filehandles`
(lines 100-101); `other` stands for any exception class outside that
tuple. -/
inductive PyError where
  | BadZipfile : PyError
  | ReadError : PyError
  | GZValidationError : PyError
  | BZ2ValidationError : PyError
  | IOError : PyError
  | NotADirectoryError : PyError
  | other : String → PyError
deriving DecidableEq

/-- Whether the clause `except (zipfile.BadZipfile, tarfile.ReadError,
GZValidationError, BZ2ValidationError, IOError, NotADirectoryError)` of
`filehandles` catches the exception. -/
def caught : PyError → Bool
  | .BadZipfile => true
  | .ReadError => true
  | .GZValidationError => true
  | .BZ2ValidationError => true
  | .IOError => true
  | .NotADirectoryError => true
  | .other _ => false

/-- Read mode of a yielded stream: `bytes` for binary streams, `text`
for streams whose `read` returns decoded text. -/
inductive StreamMode where
  | bytes : StreamMode
  | text : StreamMode
deriving DecidableEq

/-- The filehandle objects the six openers can yield, with their
provenance: `zipEntry`/`tarEntry` carry the archive path and the entry
name, the compressed and plain variants carry the source path. -/
inductive Handle where
  | zipEntry : String → String → Handle
  | tarEntry : String → String → Handle
  | gzipStream : String → Handle
  | bz2Stream : String → Handle
  | urlStream : String → Handle
  | localText : String → Handle
deriving DecidableEq

/-- Read mode of each handle, determined by the library call that created
it: `ziparchive.open` (line 152), `tararchive.extractfile` (line 174),
`gzip.open`/`gzip.GzipFile` (line 194), `bz2.open` (line 219) and
`urlopen` (line 243) all return binary streams; `open(path)` (line 243)
uses Python's default mode `'r'` and returns a text-mode stream. -/
def Handle.mode : Handle → StreamMode
  | .zipEntry _ _ => .bytes
  | .tarEntry _ _ => .bytes
  | .gzipStream _ => .bytes
  | .bz2Stream _ => .bytes
  | .urlStream _ => .bytes
  | .localText _ => .text

/-- Observable behaviour of one opener generator on a fixed
`(path, pattern, verbose)` argument: `name` is the opener function's
`__name__`, `items` are the values it yields in order, and `outcome` is
`none` when the generator finishes normally and `some e` when it raises
`e` after yielding `items`.  Calling a Python generator function runs no
body code; all effects happen as the dispatcher's `for` loop drives the
generator, so this items-then-outcome trace captures everything the
dispatcher can observe of one opener. -/
structure Attempt (α : Type) where
  name : String
  items : List α
  outcome : Option PyError
deriving DecidableEq

variable {α : Type}

/-- An attempt that raises an exception the dispatcher's `except` clause
catches (the engine's `UnsupportedSource` signal). -/
def raisesCaught (a : Attempt α) : Bool :=
  match a.outcome with
  | some e => caught e
  | none => false

/-- What a caller draining the `filehandles` generator observes: the
yielded values in order (an element would be `none` exactly when the
sentinel `yield None` of line 106 fired), the exception that propagated
out of the generator, if any, and the `__name__`s of the openers that
were invoked, in invocation order. -/
structure FHResult (α : Type) where
  items : List (Option α)
  error : Option PyError
  consulted : List String
deriving DecidableEq

/-- The dispatcher loop of `filehandles` (lines 93-106), applied to the
attempts of the openers of `openers_list` on the given path and pattern.
For each opener in order: its yielded items are forwarded to the caller;
if it raises an exception in the `except` tuple the loop continues with
the next opener; if it raises anything else the exception propagates to
the caller; and if it finishes normally the `break` on line 98 ends the
loop.  The `else:` on line 104 belongs to the `try` statement, and a
`try` block's `else` clause runs only when control flows off the end of
the `try` suite; this `try` suite always ends in `break` (or in an
exception), so the `else` clause - the verbose "No opener found" report
and the `yield None` sentinel - is unreachable, which is why no branch
below produces a `none` item. -/
def filehandles : List (Attempt α) → FHResult α
  | [] => ⟨[], none, []⟩
  | a :: rest =>
    match a.outcome with
    | none => ⟨a.items.map some, none, [a.name]⟩
    | some e =>
      if caught e then
        let r := filehandles rest
        ⟨a.items.map some ++ r.items, r.error, a.name :: r.consulted⟩
      else
        ⟨a.items.map some, some e, [a.name]⟩

/-- The `@register` decorator (lines 70-77): appends the decorated opener
function, identified here by its `__name__`, to the module-level
`openers` list. -/
def register (opener_name : String) (l : List String) : List String :=
  l ++ [opener_name]

/-- The module-level `openers` list after import: the `@register`
decorator fires once per decorated function, in source order (lines 109,
134, 156, 178, 203, 228). -/
def openers : List String :=
  register "text_opener"
    (register "bz2_opener"
      (register "gzip_opener"
        (register "tararchive_opener"
          (register "ziparchive_opener"
            (register "directory_opener" [])))))

/-- The reduced registry computed on line 120 of `directory_opener`:
`[opener for opener in openers if not opener.__name__.startswith('directory')]`.
The filter tests the function name, not object identity. -/
def directory_reduced (openers_list : List String) : List String :=
  openers_list.filter (fun n => !pyStartsWith n "directory")

/-- One regular file discovered by the `os.walk` of `directory_opener`:
its base name as it appears in `filelist`, and the absolute joined path
computed on line 129. -/
structure WalkFile where
  filename : String
  abspath : String
deriving DecidableEq

/-- Abstraction of the filesystem facts `directory_opener` consults:
whether `os.path.isdir(path)` holds, the regular files produced by the
`os.walk` traversal in visit order, and the items delivered by the
recursive `filehandles(filename_path, openers_list=..., ...)` call of
line 130 for each file path (the recursion never delivers the dead
`None` sentinel, so its delivered items are plain handles). -/
structure DirSource where
  isDir : Bool
  walkFiles : List WalkFile
  resolveFile : String → List Handle

/-- `directory_opener` (lines 109-131): raise `NotADirectoryError` unless
the path is a directory; otherwise, for every walked file whose base name
passes the pattern guard of line 125, re-yield everything the recursive
dispatcher call of line 130 delivers for its absolute path. -/
def directory_opener (src : DirSource) (pattern : Option Regex) : Attempt Handle :=
  if !src.isDir then
    ⟨"directory_opener", [], some PyError.NotADirectoryError⟩
  else
    ⟨"directory_opener",
      (src.walkFiles.filter (fun w => patternPasses pattern w.filename)).flatMap
        (fun w => src.resolveFile w.abspath),
      none⟩

/-- One entry of `ziparchive.infolist()`: its full name inside the
archive, possibly containing directory components. -/
structure ZipInfo where
  filename : String
deriving DecidableEq

/-- Directory entries inside a zip archive are exactly those whose name
ends with a slash (line 144). -/
def ZipInfo.isDirEntry (z : ZipInfo) : Bool :=
  pyEndsWith z.filename "/"

/-- `ziparchive_opener` (lines 134-153), with the archive-opening step
abstracted: `archive` is `.ok entries` when `zipfile.ZipFile(...)` opens
and enumerates normally and `.error e` when opening raises (a bad
signature raises `zipfile.BadZipfile`, a missing or unreadable path an
`IOError`).  Entries whose name ends in a slash are skipped (line 144);
remaining entries are skipped unless the full entry name passes the
pattern guard of line 147; each surviving entry is opened and yielded. -/
def ziparchive_opener (path : String) (archive : Except PyError (List ZipInfo))
    (pattern : Option Regex) : Attempt Handle :=
  match archive with
  | .error e => ⟨"ziparchive_opener", [], some e⟩
  | .ok entries =>
    ⟨"ziparchive_opener",
      (entries.filter (fun z => !z.isDirEntry && patternPasses pattern z.filename)).map
        (fun z => Handle.zipEntry path z.filename),
      none⟩

/-- One member of a tar archive: its full name inside the archive and
whether `tarinfo.isfile()` holds. -/
structure TarInfo where
  name : String
  isFile : Bool
deriving DecidableEq

/-- `tararchive_opener` (lines 156-175), with the archive-opening step
abstracted as for zip (`tarfile.open` raises `tarfile.ReadError` on a bad
signature and `IOError` on a missing path).  Non-file members are skipped
(line 166); file members are skipped unless the full member name passes
the pattern guard of line 169. -/
def tararchive_opener (path : String) (archive : Except PyError (List TarInfo))
    (pattern : Option Regex) : Attempt Handle :=
  match archive with
  | .error e => ⟨"tararchive_opener", [], some e⟩
  | .ok entries =>
    ⟨"tararchive_opener",
      (entries.filter (fun t => t.isFile && patternPasses pattern t.name)).map
        (fun t => Handle.tarEntry path t.name),
      none⟩

/-- Abstraction of a source as seen by `gzip_opener`/`bz2_opener`:
`basename` is `os.path.basename(path)`, `isUrl` is `is_url(path)`, and
`probeOk` records whether opening the stream and running the one-byte
probe `filehandle.read(1); filehandle.seek(0)` (lines 194-196 resp.
219-221) completes without raising `OSError`/`IOError`. -/
structure CompressedSource where
  path : String
  basename : String
  isUrl : Bool
  probeOk : Bool
deriving DecidableEq

/-- `gzip_opener` (lines 178-200): if the pattern guard of line 189
rejects the base name, the generator returns without yielding; otherwise
the open-probe-seek of lines 194-196 either succeeds, in which case the
single gzip stream handle is yielded and the generator finishes, or
raises `OSError`/`IOError`, which the `except` of line 199 converts to
`GZValidationError`. -/
def gzip_opener (src : CompressedSource) (pattern : Option Regex) : Attempt Handle :=
  if !patternPasses pattern src.basename then
    ⟨"gzip_opener", [], none⟩
  else if src.probeOk then
    ⟨"gzip_opener", [Handle.gzipStream src.path], none⟩
  else
    ⟨"gzip_opener", [], some PyError.GZValidationError⟩

/-- `bz2_opener` (lines 203-225): same shape as `gzip_opener`, with a
probe failure converted to `BZ2ValidationError` on line 225. -/
def bz2_opener (src : CompressedSource) (pattern : Option Regex) : Attempt Handle :=
  if !patternPasses pattern src.basename then
    ⟨"bz2_opener", [], none⟩
  else if src.probeOk then
    ⟨"bz2_opener", [Handle.bz2Stream src.path], none⟩
  else
    ⟨"bz2_opener", [], some PyError.BZ2ValidationError⟩

/-- Abstraction of a source as seen by `text_opener`: `openOk` records
whether `urlopen(path)` resp. `open(path)` on line 243 succeeds (both
raise subclasses of `OSError`, i.e. `IOError`, on failure). -/
structure TextSource where
  path : String
  basename : String
  isUrl : Bool
  openOk : Bool
deriving DecidableEq

/-- `text_opener` (lines 228-245): pattern guard on the base name
(line 239), then `urlopen(path) if is_url(path) else open(path)`; a
remote source yields the binary response stream, a local one the
text-mode stream of `open`, and an open failure raises `IOError` out of
the generator. -/
def text_opener (src : TextSource) (pattern : Option Regex) : Attempt Handle :=
  if !patternPasses pattern src.basename then
    ⟨"text_opener", [], none⟩
  else if src.openOk then
    ⟨"text_opener",
      [if src.isUrl then Handle.urlStream src.path else Handle.localText src.path],
      none⟩
  else
    ⟨"text_opener", [], some PyError.IOError⟩

/-- Events in the resource trace of one `filehandles` call: the
dispatcher's inner `for` obtains a handle from the opener generator
(`acq`), yields it to the caller (`yld`), and the `with
closing(filehandle)` block closes it (`cls`) when the caller comes back
for more - or, for the last handle consumed, when the dispatcher
generator is torn down because the caller abandoned iteration or its
consumption raised. -/
inductive HEvent (α : Type) where
  | acq : α → HEvent α
  | yld : α → HEvent α
  | cls : α → HEvent α
deriving DecidableEq

/-- Event trace of the inner loop `for filehandle in opener(...): with
closing(filehandle): yield filehandle` (lines 95-97) when the caller
requests at most `n` further items: each delivered item contributes
acquire-yield-close (the close happens on resumption, or on generator
teardown for the last item consumed), and once the caller stops
requesting, no further handle is acquired. -/
def openerTrace : List α → Nat → List (HEvent α)
  | [], _ => []
  | _ :: _, 0 => []
  | h :: t, Nat.succ m => HEvent.acq h :: HEvent.yld h :: HEvent.cls h :: openerTrace t m

/-- Event trace of the whole dispatcher loop when the caller requests at
most `n` items: the current opener's trace, then - only if the caller is
still requesting more (`a.items.length < n`) and the opener raised a
caught exception - the trace of the remaining openers.  After `break`
(normal completion) and after an uncaught exception no further handle is
touched. -/
def filehandlesTrace : List (Attempt α) → Nat → List (HEvent α)
  | [], _ => []
  | a :: rest, n =>
    let t := openerTrace a.items n
    if a.items.length < n then
      match a.outcome with
      | none => t
      | some e => if caught e then t ++ filehandlesTrace rest (n - a.items.length) else t
    else t

/-- Checker for the "never two handles open at once" discipline: scanning
the trace with `n` handles currently open, an acquire is legal only when
nothing is open. -/
def nestedOk : List (HEvent α) → Nat → Bool
  | [], _ => true
  | HEvent.acq _ :: t, n => (n == 0) && nestedOk t (n + 1)
  | HEvent.yld _ :: t, n => nestedOk t n
  | HEvent.cls _ :: t, n => nestedOk t (n - 1)

/-- The handles yielded along a trace, in order. -/
def yieldsOf : List (HEvent α) → List α
  | [] => []
  | HEvent.yld h :: t => h :: yieldsOf t
  | HEvent.acq _ :: t => yieldsOf t
  | HEvent.cls _ :: t => yieldsOf t

/-- A nonexistent local path, as seen by `text_opener`: `open` raises
`FileNotFoundError`, a subclass of `OSError = IOError`. -/
def missingText : TextSource :=
  ⟨"/nonexistent", "nonexistent", false, false⟩

/-- A nonexistent local path, as seen by the compressed-stream openers:
the open step of the probe raises `OSError = IOError`. -/
def missingCompressed : CompressedSource :=
  ⟨"/nonexistent", "nonexistent", false, false⟩

/-- A nonexistent local path, as seen by `directory_opener`:
`os.path.isdir` is false. -/
def missingDir : DirSource :=
  ⟨false, [], fun _ => []⟩

/-- The six attempts of the registered openers on the nonexistent local
path `/nonexistent` with the default empty pattern: every one of them
raises an exception from the dispatcher's `except` tuple after yielding
nothing. -/
def missingAttempts : List (Attempt Handle) :=
  [directory_opener missingDir none,
   ziparchive_opener "/nonexistent" (Except.error PyError.IOError) none,
   tararchive_opener "/nonexistent" (Except.error PyError.IOError) none,
   gzip_opener missingCompressed none,
   bz2_opener missingCompressed none,
   text_opener missingText none]

/-- A local `.gz`-named path whose open-probe-seek succeeds. -/
def probedGz : CompressedSource :=
  ⟨"/tmp/x.gz", "x.gz", false, true⟩

/-- A readable local plain-text file, as seen by `text_opener`. -/
def localTextFile : TextSource :=
  ⟨"/tmp/a.txt", "a.txt", false, true⟩

/-- The regex `d/ab` (a concatenation of literal characters). -/
def patDirAB : Regex :=
  Regex.cat (Regex.chr 'd')
    (Regex.cat (Regex.chr '/') (Regex.cat (Regex.chr 'a') (Regex.chr 'b')))

/-- Helper: `raisesCaught` unfolded into its witness form. -/
theorem raisesCaught_iff (a : Attempt α) :
    raisesCaught a = true ↔ ∃ e, a.outcome = some e ∧ caught e = true := by
  cases h : a.outcome <;> simp [raisesCaught, h]

/-- Helper: one dispatcher step over an opener that raises a caught
exception - its items are forwarded and the loop continues. -/
theorem filehandles_cons_caught (a : Attempt α) (rest : List (Attempt α)) (e : PyError)
    (h1 : a.outcome = some e) (h2 : caught e = true) :
    filehandles (a :: rest) =
      ⟨a.items.map some ++ (filehandles rest).items, (filehandles rest).error,
        a.name :: (filehandles rest).consulted⟩ := by
  simp [filehandles, h1, h2]

/-- Helper: one dispatcher step over an opener that completes normally -
its items are forwarded and the `break` ends the loop. -/
theorem filehandles_cons_done (a : Attempt α) (rest : List (Attempt α))
    (h1 : a.outcome = none) :
    filehandles (a :: rest) = ⟨a.items.map some, none, [a.name]⟩ := by
  simp [filehandles, h1]

/-- Helper: over a registry in which every opener raises a caught
exception, the dispatcher forwards all their items, consults all of
them, and surfaces no error. -/
theorem filehandles_all_caught (l : List (Attempt α))
    (h : ∀ b ∈ l, raisesCaught b = true) :
    (filehandles l).items = l.flatMap (fun b => b.items.map some) ∧
    (filehandles l).error = none ∧
    (filehandles l).consulted = l.map Attempt.name := by
  induction l with
  | nil => exact ⟨rfl, rfl, rfl⟩
  | cons a rest ih =>
    have ha := h a (by simp)
    cases ho : a.outcome with
    | none => simp [raisesCaught, ho] at ha
    | some e =>
      have hc : caught e = true := by simpa [raisesCaught, ho] using ha
      have ihr := ih (fun b hb => h b (by simp [hb]))
      rw [filehandles_cons_caught a rest e ho hc]
      simp [ihr.1, ihr.2.1, ihr.2.2]

/-- C1 (evaluation of the code at the claim's scenario): when every
opener in the registry raises a caught exception after yielding nothing,
`filehandles` yields nothing at all - no sentinel `None` item ever
appears and no error is raised, because the `yield None` of line 106
lives in the `else` clause of a `try` whose suite always exits via
`break` or an exception, so that clause is unreachable.  The claim (and
the spec) expect exactly one `None` item here. -/
theorem all_openers_fail_yields_nothing (l : List (Attempt α))
    (h : l.all (fun a => a.items.isEmpty && raisesCaught a) = true) :
    (filehandles l).items = [] ∧ (filehandles l).error = none := by
  induction l with
  | nil => exact ⟨rfl, rfl⟩
  | cons a rest ih =>
    obtain ⟨⟨hie, hrc⟩, hall⟩ : (a.items.isEmpty = true ∧ raisesCaught a = true) ∧
        rest.all (fun a => a.items.isEmpty && raisesCaught a) = true := by
      simpa [List.all_cons, Bool.and_eq_true] using h
    cases ho : a.outcome with
    | none => simp [raisesCaught, ho] at hrc
    | some e =>
      have hc : caught e = true := by simpa [raisesCaught, ho] using hrc
      have hi : a.items = [] := by simpa using hie
      obtain ⟨ih1, ih2⟩ := ih hall
      rw [filehandles_cons_caught a rest e ho hc]
      simp [hi, ih1, ih2]

/-- C1 witness: on the nonexistent local path `/nonexistent` every one of
the six registered openers raises a caught exception with no items, and
the dispatcher's output is the empty sequence with no error. -/
theorem all_openers_fail_yields_nothing_witness :
    (filehandles missingAttempts).items = [] ∧
    (filehandles missingAttempts).error = none :=
  all_openers_fail_yields_nothing missingAttempts (by decide)

/-- C2 is false on the code at a concrete input: on a nonexistent local
path the PlainText strategy raises `IOError`, but `IOError` is in the
dispatcher's `except` tuple, so the failure is swallowed as fallthrough
and the caller sees an empty sequence with no propagated error - not a
terminal error. -/
theorem plaintext_ioerror_swallowed_counterexample :
    (text_opener missingText none).outcome = some PyError.IOError ∧
    caught PyError.IOError = true ∧
    (filehandles [text_opener missingText none]).error = none ∧
    (filehandles [text_opener missingText none]).items = [] := by
  decide

/-- C2 amended: an `IOError` raised while the PlainText strategy opens
its source is caught by the dispatcher's `except` clause and treated
exactly like an `UnsupportedSource` fallthrough; with PlainText last in
the registry, resolution then ends with no further items and no error
surfaced to the caller. -/
theorem plaintext_ioerror_is_fallthrough (ts : TextSource) (pattern : Option Regex)
    (pre : List (Attempt Handle))
    (hsel : patternPasses pattern ts.basename = true) (hopen : ts.openOk = false)
    (hpre : ∀ b ∈ pre, raisesCaught b = true) :
    (text_opener ts pattern).outcome = some PyError.IOError ∧
    caught PyError.IOError = true ∧
    (filehandles (pre ++ [text_opener ts pattern])).error = none ∧
    (filehandles (pre ++ [text_opener ts pattern])).items = (filehandles pre).items := by
  have hatt : text_opener ts pattern = ⟨"text_opener", [], some PyError.IOError⟩ := by
    simp [text_opener, hsel, hopen]
  have hall : ∀ b ∈ pre ++ [text_opener ts pattern], raisesCaught b = true := by
    intro b hb
    rcases List.mem_append.mp hb with hl | hr
    · exact hpre b hl
    · simp at hr
      subst hr
      simp [raisesCaught, hatt, caught]
  obtain ⟨h1, h2, h3⟩ := filehandles_all_caught (pre ++ [text_opener ts pattern]) hall
  obtain ⟨g1, g2, g3⟩ := filehandles_all_caught pre hpre
  refine ⟨by simp [hatt], rfl, h2, ?_⟩
  rw [h1, g1]
  simp [hatt]

/-- C2 amended, witness: instantiated at the nonexistent local path and
the empty pattern with an empty preceding registry. -/
theorem plaintext_ioerror_is_fallthrough_witness :
    (text_opener missingText none).outcome = some PyError.IOError ∧
    caught PyError.IOError = true ∧
    (filehandles ([] ++ [text_opener missingText none])).error = none ∧
    (filehandles ([] ++ [text_opener missingText none])).items =
      (filehandles ([] : List (Attempt Handle))).items :=
  plaintext_ioerror_is_fallthrough missingText none [] rfl rfl (by simp)

/-- C4: when a strategy raises a caught (`UnsupportedSource`) exception
after yielding `k ≥ 1` items through the dispatcher, those items remain
in the caller-observed output, and the dispatcher continues with the
remaining strategies in registry order, whose items follow them. -/
theorem yielded_items_not_retracted (a : Attempt α) (rest : List (Attempt α)) (e : PyError)
    (h1 : a.outcome = some e) (h2 : caught e = true) (_h3 : a.items ≠ []) :
    (filehandles (a :: rest)).items = a.items.map some ++ (filehandles rest).items ∧
    (filehandles (a :: rest)).error = (filehandles rest).error ∧
    (filehandles (a :: rest)).consulted = a.name :: (filehandles rest).consulted := by
  rw [filehandles_cons_caught a rest e h1 h2]
  exact ⟨rfl, rfl, rfl⟩

/-- An opener attempt that yields one zip-entry handle and then raises
`BadZipfile` (a corrupt second member, say). -/
def wFailing : Attempt Handle :=
  ⟨"ziparchive_opener", [Handle.zipEntry "a.zip" "x"], some PyError.BadZipfile⟩

/-- An opener attempt that yields one handle and completes normally. -/
def wNext : Attempt Handle :=
  ⟨"text_opener", [Handle.localText "a.zip"], none⟩

/-- A normally-completing attempt used as a never-reached tail. -/
def wExtra : Attempt Handle :=
  ⟨"bz2_opener", [Handle.bz2Stream "b"], none⟩

/-- C4 witness: a strategy yields one item and then raises `BadZipfile`;
the item stays and the next strategy's item follows it. -/
theorem yielded_items_not_retracted_witness :
    (filehandles [wFailing, wNext]).items =
      wFailing.items.map some ++ (filehandles [wNext]).items ∧
    (filehandles [wFailing, wNext]).error = (filehandles [wNext]).error ∧
    (filehandles [wFailing, wNext]).consulted =
      wFailing.name :: (filehandles [wNext]).consulted :=
  yielded_items_not_retracted wFailing [wNext] PyError.BadZipfile rfl rfl (by decide)

/-- C5: the first strategy in registry order whose attempt completes
normally (all strategies before it having raised caught exceptions) is
the last strategy consulted, and the overall result is independent of
whatever strategies follow it in the registry. -/
theorem first_success_wins (pre : List (Attempt α)) (a : Attempt α)
    (rest rest2 : List (Attempt α))
    (hpre : ∀ b ∈ pre, raisesCaught b = true) (ha : a.outcome = none) :
    (filehandles (pre ++ a :: rest)).consulted = pre.map Attempt.name ++ [a.name] ∧
    filehandles (pre ++ a :: rest) = filehandles (pre ++ a :: rest2) := by
  induction pre with
  | nil =>
    rw [List.nil_append, List.nil_append, filehandles_cons_done a rest ha,
      filehandles_cons_done a rest2 ha]
    exact ⟨by simp, rfl⟩
  | cons b pre ih =>
    have hb := hpre b (by simp)
    cases ho : b.outcome with
    | none => simp [raisesCaught, ho] at hb
    | some e =>
      have hc : caught e = true := by simpa [raisesCaught, ho] using hb
      obtain ⟨ih1, ih2⟩ := ih (fun x hx => hpre x (by simp [hx]))
      rw [List.cons_append, List.cons_append, filehandles_cons_caught b _ e ho hc,
        filehandles_cons_caught b _ e ho hc]
      refine ⟨by simp [ih1], ?_⟩
      rw [ih2]

/-- C5 witness: one failing strategy, then a succeeding one; the
succeeding one is last consulted and the trailing registry is ignored. -/
theorem first_success_wins_witness :
    (filehandles ([wFailing] ++ wNext :: [wExtra])).consulted =
      [wFailing].map Attempt.name ++ [wNext.name] ∧
    filehandles ([wFailing] ++ wNext :: [wExtra]) =
      filehandles ([wFailing] ++ wNext :: []) :=
  first_success_wins [wFailing] wNext [wExtra] [] (by decide) rfl

/-- C6: the registry built at import time by the `@register` decorator
is exactly `directory_opener, ziparchive_opener, tararchive_opener,
gzip_opener, bz2_opener, text_opener` in that order, with `text_opener`
last; the modelled openers carry exactly these `__name__`s; and this is
the order the dispatcher tries strategies in: the openers it consults
are always an initial segment of the registry's name list. -/
theorem registry_order :
    openers = ["directory_opener", "ziparchive_opener", "tararchive_opener",
      "gzip_opener", "bz2_opener", "text_opener"] ∧
    openers.getLast? = some "text_opener" ∧
    (∀ ds p, (directory_opener ds p).name = "directory_opener") ∧
    (∀ path a p, (ziparchive_opener path a p).name = "ziparchive_opener") ∧
    (∀ path a p, (tararchive_opener path a p).name = "tararchive_opener") ∧
    (∀ cs p, (gzip_opener cs p).name = "gzip_opener") ∧
    (∀ cs p, (bz2_opener cs p).name = "bz2_opener") ∧
    (∀ ts p, (text_opener ts p).name = "text_opener") ∧
    (∀ (l : List (Attempt Handle)), ∃ k,
      (filehandles l).consulted = (l.map Attempt.name).take k) := by
  refine ⟨by decide, by decide, ?_, ?_, ?_, ?_, ?_, ?_, ?_⟩
  · intro ds p
    by_cases hd : ds.isDir <;> simp [directory_opener, hd]
  · intro path a p
    cases a <;> simp [ziparchive_opener]
  · intro path a p
    cases a <;> simp [tararchive_opener]
  · intro cs p
    by_cases hm : patternPasses p cs.basename <;> by_cases hp : cs.probeOk <;>
      simp [gzip_opener, hm, hp]
  · intro cs p
    by_cases hm : patternPasses p cs.basename <;> by_cases hp : cs.probeOk <;>
      simp [bz2_opener, hm, hp]
  · intro ts p
    by_cases hm : patternPasses p ts.basename <;> by_cases hp : ts.openOk <;>
      simp [text_opener, hm, hp]
  · intro l
    induction l with
    | nil => exact ⟨0, rfl⟩
    | cons a rest ih =>
      cases ho : a.outcome with
      | none =>
        refine ⟨1, ?_⟩
        rw [filehandles_cons_done a rest ho]
        simp
      | some e =>
        by_cases hc : caught e
        · obtain ⟨k, hk⟩ := ih
          refine ⟨k + 1, ?_⟩
          rw [filehandles_cons_caught a rest e ho hc]
          simp [hk]
        · refine ⟨1, ?_⟩
          have : filehandles (a :: rest) = ⟨a.items.map some, some e, [a.name]⟩ := by
            simp [filehandles, ho, hc]
          rw [this]
          simp

/-- C10: the reduced registry `directory_opener` hands to the recursive
dispatcher call (line 120) keeps exactly the registered openers whose
`__name__` does not start with `directory` - the exclusion is by name,
not by object identity - so it can never contain `directory_opener`
whatever the registry holds, a custom-registered opener whose name
begins with `directory` is silently excluded too, and on the import-time
registry the other five openers survive in order. -/
theorem directory_recursion_reduced_registry :
    (∀ (l : List String) (n : String),
      n ∈ directory_reduced l ↔ n ∈ l ∧ pyStartsWith n "directory" = false) ∧
    (∀ (l : List String), "directory_opener" ∉ directory_reduced l) ∧
    (∀ (c : String), pyStartsWith c "directory" = true →
      c ∉ directory_reduced (register c openers)) ∧
    directory_reduced openers =
      ["ziparchive_opener", "tararchive_opener", "gzip_opener", "bz2_opener",
        "text_opener"] := by
  refine ⟨?_, ?_, ?_, by decide⟩
  · intro l n
    simp [directory_reduced, List.mem_filter]
  · intro l hmem
    have hp := (List.mem_filter.mp hmem).2
    exact absurd hp (by decide)
  · intro c hc hmem
    have hp := (List.mem_filter.mp hmem).2
    rw [hc] at hp
    simp at hp

/-- C10 witness: a custom opener registered under the name
`directory_custom` is excluded from the reduced registry. -/
theorem directory_recursion_reduced_registry_witness :
    "directory_custom" ∉ directory_reduced (register "directory_custom" openers) :=
  directory_recursion_reduced_registry.2.2.1 "directory_custom" (by decide)

/-- C3 is false on the code, in both respects, at concrete zip archives:
with pattern `a` the entry `ab` is surfaced although the pattern wholly
matches only the proper prefix `a` of the name, and with pattern `d/ab`
the entry `d/ab` is surfaced although the pattern does not match the
entry's base file name `ab` at all - the code applies `re.match` to the
full entry name. -/
theorem pattern_gate_counterexample :
    (ziparchive_opener "a.zip" (Except.ok [⟨"ab"⟩]) (some (Regex.chr 'a'))).items =
      [Handle.zipEntry "a.zip" "ab"] ∧
    rmatch (Regex.chr 'a') "ab".toList = false ∧
    (ziparchive_opener "a.zip" (Except.ok [⟨"d/ab"⟩]) (some patDirAB)).items =
      [Handle.zipEntry "a.zip" "d/ab"] ∧
    reMatch patDirAB "ab".toList = false := by
  decide

/-- C3 amended: a file or archive entry is surfaced iff `re.match` finds
a match at the start of the tested name, so a pattern matching only a
proper prefix of the name qualifies; the tested name is the base file
name for the Directory, Gzip, Bzip2 and PlainText strategies, but the
full entry name - directory components included - for the ZipArchive and
TarArchive strategies (whose directory-only resp. non-file entries are
skipped). -/
theorem pattern_gate_characterization (path : String) (entries : List ZipInfo)
    (tentries : List TarInfo) (r : Regex) (ds : DirSource) (cs : CompressedSource)
    (ts : TextSource) (h : Handle) :
    (h ∈ (ziparchive_opener path (Except.ok entries) (some r)).items ↔
      ∃ z, z ∈ entries ∧ z.isDirEntry = false ∧ reMatch r z.filename.toList = true ∧
        h = Handle.zipEntry path z.filename) ∧
    (h ∈ (tararchive_opener path (Except.ok tentries) (some r)).items ↔
      ∃ t, t ∈ tentries ∧ t.isFile = true ∧ reMatch r t.name.toList = true ∧
        h = Handle.tarEntry path t.name) ∧
    (ds.isDir = true →
      (directory_opener ds (some r)).items =
        (ds.walkFiles.filter (fun w => reMatch r w.filename.toList)).flatMap
          (fun w => ds.resolveFile w.abspath)) ∧
    ((gzip_opener cs (some r)).items ≠ [] ↔
      reMatch r cs.basename.toList = true ∧ cs.probeOk = true) ∧
    ((bz2_opener cs (some r)).items ≠ [] ↔
      reMatch r cs.basename.toList = true ∧ cs.probeOk = true) ∧
    ((text_opener ts (some r)).items ≠ [] ↔
      reMatch r ts.basename.toList = true ∧ ts.openOk = true) := by
  refine ⟨?_, ?_, ?_, ?_, ?_, ?_⟩
  · simp only [ziparchive_opener, List.mem_map, List.mem_filter, Bool.and_eq_true,
      Bool.not_eq_true', patternPasses]
    constructor
    · rintro ⟨z, ⟨hz, hd, hm⟩, hh⟩
      exact ⟨z, hz, hd, hm, hh.symm⟩
    · rintro ⟨z, hz, hd, hm, hh⟩
      exact ⟨z, ⟨hz, hd, hm⟩, hh.symm⟩
  · simp only [tararchive_opener, List.mem_map, List.mem_filter, Bool.and_eq_true,
      patternPasses]
    constructor
    · rintro ⟨t, ⟨ht, hf, hm⟩, hh⟩
      exact ⟨t, ht, hf, hm, hh.symm⟩
    · rintro ⟨t, ht, hf, hm, hh⟩
      exact ⟨t, ⟨ht, hf, hm⟩, hh.symm⟩
  · intro hd
    simp [directory_opener, hd, patternPasses]
  · by_cases hm : reMatch r cs.basename.data = true <;> by_cases hp : cs.probeOk <;>
      simp [gzip_opener, patternPasses, hm, hp]
  · by_cases hm : reMatch r cs.basename.data = true <;> by_cases hp : cs.probeOk <;>
      simp [bz2_opener, patternPasses, hm, hp]
  · by_cases hm : reMatch r ts.basename.data = true <;> by_cases hp : ts.openOk <;>
      simp [text_opener, patternPasses, hm, hp]

/-- C3 amended, witness: in a directory holding the single file `ab`,
the pattern `a` (which matches the name's proper prefix) lets the file
through to the recursive resolution. -/
theorem pattern_gate_characterization_witness :
    (directory_opener ⟨true, [⟨"ab", "/d/ab"⟩], fun p => [Handle.localText p]⟩
        (some (Regex.chr 'a'))).items =
      (([⟨"ab", "/d/ab"⟩] : List WalkFile).filter
          (fun w => reMatch (Regex.chr 'a') w.filename.toList)).flatMap
        (fun w => (fun p => [Handle.localText p]) w.abspath) :=
  (pattern_gate_characterization "p" [] [] (Regex.chr 'a')
    ⟨true, [⟨"ab", "/d/ab"⟩], fun p => [Handle.localText p]⟩ missingCompressed
    missingText (Handle.localText "x")).2.2.1 rfl

/-- C8: for the compressed-stream strategies under a non-empty pattern:
a base name the pattern does not match gives an empty attempt that
completes normally (a legitimate empty result the dispatcher treats as
success); a matching base name with a failing open-probe-seek raises the
format-specific validation error, which the dispatcher's `except` tuple
catches as `UnsupportedSource`; a matching base name with a successful
probe yields exactly one handle. -/
theorem compressed_strategy_cases (cs : CompressedSource) (r : Regex) :
    (reMatch r cs.basename.toList = false →
      gzip_opener cs (some r) = ⟨"gzip_opener", [], none⟩ ∧
      bz2_opener cs (some r) = ⟨"bz2_opener", [], none⟩) ∧
    (reMatch r cs.basename.toList = true → cs.probeOk = false →
      gzip_opener cs (some r) =
        ⟨"gzip_opener", [], some PyError.GZValidationError⟩ ∧
      bz2_opener cs (some r) =
        ⟨"bz2_opener", [], some PyError.BZ2ValidationError⟩ ∧
      caught PyError.GZValidationError = true ∧
      caught PyError.BZ2ValidationError = true) ∧
    (reMatch r cs.basename.toList = true → cs.probeOk = true →
      gzip_opener cs (some r) =
        ⟨"gzip_opener", [Handle.gzipStream cs.path], none⟩ ∧
      bz2_opener cs (some r) =
        ⟨"bz2_opener", [Handle.bz2Stream cs.path], none⟩) := by
  refine ⟨?_, ?_, ?_⟩
  · intro hm
    simp only [String.toList] at hm
    simp [gzip_opener, bz2_opener, patternPasses, hm]
  · intro hm hp
    simp only [String.toList] at hm
    simp [gzip_opener, bz2_opener, patternPasses, hm, hp, caught]
  · intro hm hp
    simp only [String.toList] at hm
    simp [gzip_opener, bz2_opener, patternPasses, hm, hp]

/-- C8 witness: on a probed `.gz` source whose base name `x.gz` matches
the pattern `x`, each compressed strategy yields exactly one handle. -/
theorem compressed_strategy_cases_witness :
    gzip_opener probedGz (some (Regex.chr 'x')) =
      ⟨"gzip_opener", [Handle.gzipStream probedGz.path], none⟩ ∧
    bz2_opener probedGz (some (Regex.chr 'x')) =
      ⟨"bz2_opener", [Handle.bz2Stream probedGz.path], none⟩ :=
  (compressed_strategy_cases probedGz (Regex.chr 'x')).2.2 (by decide) rfl

/-- C9 is false on the code at a concrete input: on a readable local
path the PlainText strategy yields the stream of `open(path)`, which
Python opens in its default text mode, so reading that handle produces
decoded text, not bytes. -/
theorem plaintext_local_text_mode_counterexample :
    (text_opener localTextFile none).items = [Handle.localText "/tmp/a.txt"] ∧
    (Handle.localText "/tmp/a.txt").mode = StreamMode.text ∧
    (Handle.localText "/tmp/a.txt").mode ≠ StreamMode.bytes := by
  decide

/-- C9 amended: every handle yielded by the ZipArchive, TarArchive, Gzip
and Bzip2 strategies is a byte-readable stream, and so is the PlainText
handle for a remote URL; the PlainText strategy on a local path, though,
yields the text-mode stream of `open`, which reads decoded text. -/
theorem handle_modes (path : String) (archive : Except PyError (List ZipInfo))
    (tarchive : Except PyError (List TarInfo)) (cs : CompressedSource)
    (ts : TextSource) (p : Option Regex) :
    (∀ h ∈ (ziparchive_opener path archive p).items, h.mode = StreamMode.bytes) ∧
    (∀ h ∈ (tararchive_opener path tarchive p).items, h.mode = StreamMode.bytes) ∧
    (∀ h ∈ (gzip_opener cs p).items, h.mode = StreamMode.bytes) ∧
    (∀ h ∈ (bz2_opener cs p).items, h.mode = StreamMode.bytes) ∧
    (ts.isUrl = true → ∀ h ∈ (text_opener ts p).items, h.mode = StreamMode.bytes) ∧
    (ts.isUrl = false → ∀ h ∈ (text_opener ts p).items, h.mode = StreamMode.text) := by
  refine ⟨?_, ?_, ?_, ?_, ?_, ?_⟩
  · cases archive with
    | error e => simp [ziparchive_opener]
    | ok entries =>
      intro h hh
      obtain ⟨z, -, hz⟩ := List.mem_map.mp hh
      rw [← hz]
      rfl
  · cases tarchive with
    | error e => simp [tararchive_opener]
    | ok entries =>
      intro h hh
      obtain ⟨t, -, ht⟩ := List.mem_map.mp hh
      rw [← ht]
      rfl
  · by_cases hm : patternPasses p cs.basename <;> by_cases hp : cs.probeOk <;>
      simp [gzip_opener, hm, hp, Handle.mode]
  · by_cases hm : patternPasses p cs.basename <;> by_cases hp : cs.probeOk <;>
      simp [bz2_opener, hm, hp, Handle.mode]
  · intro hu
    by_cases hm : patternPasses p ts.basename <;> by_cases hp : ts.openOk <;>
      simp [text_opener, hm, hp, hu, Handle.mode]
  · intro hu
    by_cases hm : patternPasses p ts.basename <;> by_cases hp : ts.openOk <;>
      simp [text_opener, hm, hp, hu, Handle.mode]

/-- C9 amended, witness: the handle the PlainText strategy yields for
the readable local path `/tmp/a.txt` is text-mode. -/
theorem handle_modes_witness :
    (Handle.localText "/tmp/a.txt").mode = StreamMode.text :=
  (handle_modes "p" (Except.error PyError.IOError) (Except.error PyError.IOError)
    missingCompressed localTextFile none).2.2.2.2.2 rfl
    (Handle.localText "/tmp/a.txt") (by decide)

/-- Helper: the inner-loop trace is well nested in front of any well
nested continuation. -/
theorem nestedOk_openerTrace (hs : List α) (n : Nat) (tr : List (HEvent α))
    (h : nestedOk tr 0 = true) :
    nestedOk (openerTrace hs n ++ tr) 0 = true := by
  induction hs generalizing n with
  | nil => simpa [openerTrace]
  | cons a t ih =>
    cases n with
    | zero => simpa [openerTrace]
    | succ m =>
      simpa [openerTrace, nestedOk] using ih m

/-- Helper: `yieldsOf` distributes over concatenation. -/
theorem yieldsOf_append (xs ys : List (HEvent α)) :
    yieldsOf (xs ++ ys) = yieldsOf xs ++ yieldsOf ys := by
  induction xs with
  | nil => rfl
  | cons e t ih => cases e <;> simp [yieldsOf, ih]

/-- Helper: the inner-loop trace yields exactly the first `n` items the
opener produces. -/
theorem yieldsOf_openerTrace (hs : List α) (n : Nat) :
    yieldsOf (openerTrace hs n) = hs.take n := by
  induction hs generalizing n with
  | nil => simp [openerTrace, yieldsOf]
  | cons a t ih =>
    cases n with
    | zero => simp [openerTrace, yieldsOf]
    | succ m => simp [openerTrace, yieldsOf, ih]

/-- C7: for every registry and every number `n` of items the caller
consumes before stopping (covering full consumption, early abandonment,
and consumption that raises - all of which close the current handle via
the `with closing(...)` teardown before anything else happens), the
dispatcher's resource trace never has two handles open at once: each
yielded handle is closed before the next one is acquired.  Moreover the
handles yielded along the trace are exactly the first `n` items of the
dispatcher's output, so the discipline covers every handle the caller
ever sees. -/
theorem handles_sequentially_scoped (l : List (Attempt α)) (n : Nat) :
    nestedOk (filehandlesTrace l n) 0 = true ∧
    (yieldsOf (filehandlesTrace l n)).map some = (filehandles l).items.take n := by
  induction l generalizing n with
  | nil => simp [filehandlesTrace, filehandles, nestedOk, yieldsOf]
  | cons a rest ih =>
    by_cases hlt : a.items.length < n
    · cases ho : a.outcome with
      | none =>
        rw [filehandles_cons_done a rest ho]
        have htr : filehandlesTrace (a :: rest) n = openerTrace a.items n := by
          simp [filehandlesTrace, hlt, ho]
        rw [htr]
        refine ⟨by simpa using nestedOk_openerTrace a.items n [] rfl, ?_⟩
        rw [yieldsOf_openerTrace, List.take_of_length_le (Nat.le_of_lt hlt),
          List.take_of_length_le (by simpa using Nat.le_of_lt hlt)]
      | some e =>
        by_cases hc : caught e
        · rw [filehandles_cons_caught a rest e ho hc]
          have htr : filehandlesTrace (a :: rest) n =
              openerTrace a.items n ++ filehandlesTrace rest (n - a.items.length) := by
            simp [filehandlesTrace, hlt, ho, hc]
          rw [htr]
          obtain ⟨ih1, ih2⟩ := ih (n - a.items.length)
          refine ⟨nestedOk_openerTrace a.items n _ ih1, ?_⟩
          rw [yieldsOf_append, yieldsOf_openerTrace, List.map_append,
            List.take_of_length_le (Nat.le_of_lt hlt)]
          rw [List.take_append_eq_append_take,
            List.take_of_length_le (by simpa using Nat.le_of_lt hlt), ih2,
            List.length_map]
        · have htr : filehandlesTrace (a :: rest) n = openerTrace a.items n := by
            simp [filehandlesTrace, hlt, ho, hc]
          have hres : filehandles (a :: rest) = ⟨a.items.map some, some e, [a.name]⟩ := by
            simp [filehandles, ho, hc]
          rw [htr, hres]
          refine ⟨by simpa using nestedOk_openerTrace a.items n [] rfl, ?_⟩
          rw [yieldsOf_openerTrace, List.take_of_length_le (Nat.le_of_lt hlt),
            List.take_of_length_le (by simpa using Nat.le_of_lt hlt)]
    · have htr : filehandlesTrace (a :: rest) n = openerTrace a.items n := by
        simp [filehandlesTrace, hlt]
      have hle : n ≤ a.items.length := Nat.le_of_not_lt hlt
      have hmap : (filehandles (a :: rest)).items.take n = (a.items.take n).map some := by
        cases ho : a.outcome with
        | none =>
          rw [filehandles_cons_done a rest ho]
          simp [List.map_take]
        | some e =>
          by_cases hc : caught e
          · rw [filehandles_cons_caught a rest e ho hc]
            have : n - (a.items.map some).length = 0 := by
              simp [Nat.sub_eq_zero_of_le hle]
            rw [List.take_append_eq_append_take, this, List.take_zero,
              List.append_nil, List.map_take]
          · have hres : filehandles (a :: rest) =
                ⟨a.items.map some, some e, [a.name]⟩ := by
              simp [filehandles, ho, hc]
            rw [hres]
            simp [List.map_take]
      rw [htr, hmap]
      exact ⟨by simpa using nestedOk_openerTrace a.items n [] rfl,
        by rw [yieldsOf_openerTrace]⟩
